import Mathlib

/-!
Shallow embedding of the `ws_master` message schema (`src/ws_master/schemas.py`)
and of the dispatch pipeline the tests in `tests/test_websocket.py` exercise.

The schema layer is translated directly from the pydantic models
`WebSocketRequest` and `WebSocketResponse`.  The dispatch layer (router,
injector, event handlers, response builder) lives in repository modules that
are not part of the provided sources, so those definitions are modelled from
the specification; the two concrete handlers (`PingEvent`, `UserEvent`) are
translated from the test file, which constructs them in full.
-/

/-- Structured JSON-like values carried on the wire.  Numbers are modelled as
integers: every payload the repository sends or its tests exchange is an
integer, a string, null, an object or a list. -/
inductive Json where
  | null : Json
  | bool (b : Bool) : Json
  | num (n : Int) : Json
  | str (s : String) : Json
  | arr (xs : List Json) : Json
  | obj (fields : List (String × Json)) : Json

/-- First-match lookup in an association list keyed by strings (field lookup
in a decoded JSON object, provider lookup in a registry). -/
def alookup {β : Type} : List (String × β) → String → Option β
  | [], _ => none
  | (k, v) :: rest, key => if k = key then some v else alookup rest key

/-- The value of a message `id`: pydantic type `Optional[int | str]`, so when
present and non-null it is an integer or a string. -/
inductive IdScalar where
  | int (n : Int) : IdScalar
  | str (s : String) : IdScalar

/-- The value of a message `data` payload: pydantic type `Optional[Dict | List]`,
so when present and non-null it is an object or a list. -/
inductive JsonData where
  | obj (fields : List (String × Json)) : JsonData
  | arr (xs : List Json) : JsonData

/-- `WebSocketRequest` from `src/ws_master/schemas.py`:
`id: Optional[int | str] = None`, `event: str`, `route: str`,
`data: Optional[Dict | List] = dict()`. -/
structure WebSocketRequest where
  id : Option IdScalar
  event : String
  route : String
  data : Option JsonData

/-- `WebSocketResponse` from `src/ws_master/schemas.py`: inherits every field
of `WebSocketRequest` and adds `error: Optional[str] = None`. -/
structure WebSocketResponse extends WebSocketRequest where
  error : Option String

/-- Field-level validation of `id` (`Optional[int | str]`, default `None`):
absent or null becomes `none`; an integer or a string is kept; anything else
is rejected (pydantic coerces neither booleans nor containers here). -/
def decodeIdField : Option Json → Option (Option IdScalar)
  | none => some none
  | some Json.null => some none
  | some (Json.num n) => some (some (IdScalar.int n))
  | some (Json.str s) => some (some (IdScalar.str s))
  | some _ => none

/-- Field-level validation of a required `str` field (`event`, `route`):
present string values only. -/
def decodeStrField : Option Json → Option String
  | some (Json.str s) => some s
  | _ => none

/-- Field-level validation of `data` (`Optional[Dict | List] = dict()`):
absent takes the default empty object, null becomes `none`, objects and
lists are kept, anything else is rejected. -/
def decodeDataField : Option Json → Option (Option JsonData)
  | none => some (some (JsonData.obj []))
  | some Json.null => some none
  | some (Json.obj fs) => some (some (JsonData.obj fs))
  | some (Json.arr xs) => some (some (JsonData.arr xs))
  | some _ => none

/-- Field-level validation of `error` (`Optional[str] = None`): absent or null
becomes `none`, a string is kept, anything else is rejected. -/
def decodeErrorField : Option Json → Option (Option String)
  | none => some none
  | some Json.null => some none
  | some (Json.str s) => some (some s)
  | some _ => none

/-- Decoding a frame as a `WebSocketRequest` (pydantic model validation):
the frame must be an object whose `id`, `event`, `route`, `data` fields each
pass their field validator; unknown extra fields are ignored. -/
def WebSocketRequest.decode (j : Json) : Option WebSocketRequest :=
  match j with
  | Json.obj fs =>
    match decodeIdField (alookup fs "id"), decodeStrField (alookup fs "event"),
          decodeStrField (alookup fs "route"), decodeDataField (alookup fs "data") with
    | some i, some e, some r, some d => some ⟨i, e, r, d⟩
    | _, _, _, _ => none
  | _ => none

/-- Decoding a frame as a `WebSocketResponse`: the request fields plus the
`error` field. -/
def WebSocketResponse.decode (j : Json) : Option WebSocketResponse :=
  match j with
  | Json.obj fs =>
    match WebSocketRequest.decode j, decodeErrorField (alookup fs "error") with
    | some req, some err => some ⟨req, err⟩
    | _, _ => none
  | _ => none

/-- Wire form of an `id` value (pydantic serialization keeps `None` as null). -/
def encodeId : Option IdScalar → Json
  | none => Json.null
  | some (IdScalar.int n) => Json.num n
  | some (IdScalar.str s) => Json.str s

/-- Wire form of a `data` value. -/
def encodeData : Option JsonData → Json
  | none => Json.null
  | some (JsonData.obj fs) => Json.obj fs
  | some (JsonData.arr xs) => Json.arr xs

/-- Wire form of an `error` value. -/
def encodeError : Option String → Json
  | none => Json.null
  | some s => Json.str s

/-- The four request fields in model declaration order, as emitted by
pydantic `model_dump` (fields with value `None` are included as null). -/
def requestFields (m : WebSocketRequest) : List (String × Json) :=
  [("id", encodeId m.id), ("event", Json.str m.event),
   ("route", Json.str m.route), ("data", encodeData m.data)]

/-- Serializing a `WebSocketRequest` to its wire form. -/
def WebSocketRequest.encode (m : WebSocketRequest) : Json :=
  Json.obj (requestFields m)

/-- Serializing a `WebSocketResponse` to its wire form: the inherited request
fields followed by `error`. -/
def WebSocketResponse.encode (m : WebSocketResponse) : Json :=
  Json.obj (requestFields m.toWebSocketRequest ++ [("error", encodeError m.error)])

/-- Modelled from the spec (the delivery strategies of §4.4; `ws_master`
modules other than `schemas.py` are not in the provided sources): who receives
a built response. -/
inductive Strategy where
  | respondent : Strategy
  | byKey (k : Int) : Strategy
  | broadcast : Strategy

/-- Modelled from the spec (§4.3 Dependency Registry; `ws_master/injector.py`
is not in the provided sources): global registrations map a capability tag to
an optional provider value (`none` means deferred binding), and a
per-connection overlay maps capability tags to concrete values.  `α` is the
type of injectable values. -/
structure Injector (α : Type) where
  globalRegs : List (String × Option α)
  perConn : List (String × α)

/-- Modelled from the spec (§4.3): resolution order is per-connection value
first, else global provider, else failure. -/
def Injector.resolve {α : Type} (inj : Injector α) (t : String) : Option α :=
  match alookup inj.perConn t with
  | some v => some v
  | none =>
    match alookup inj.globalRegs t with
    | some (some v) => some v
    | _ => none

/-- Resolve a handler's declared dependency list in order; any unresolved
capability fails the whole invocation (`UnresolvedDependency`). -/
def resolveAll {α : Type} (inj : Injector α) : List String → Option (List α)
  | [] => some []
  | t :: ts =>
    match inj.resolve t with
    | none => none
    | some v => (resolveAll inj ts).map (fun vs => v :: vs)

/-- Modelled from the spec (§4.2 Event Handler; `ws_master/event.py` is not in
the provided sources): a handler declares an event name, an optional payload
schema (a validation function from the message `data` to a validated payload,
`none` meaning raw passthrough), a list of declared capability dependencies,
and a `handle` operation producing response payloads each paired with a
delivery strategy. -/
structure HandlerDef (α : Type) where
  eventName : String
  schema : Option (Option JsonData → Option Json)
  deps : List String
  handleFn : Json → List α → List (JsonData × Strategy)

/-- Modelled from the spec (§4.1 Route Table; `ws_master/router.py` is not in
the provided sources): route key to event name to handler. -/
structure WebSocketRouter (α : Type) where
  routes : List (String × List (String × HandlerDef α))

/-- Route Table lookup failures: the route itself is unknown, or the route is
known but the event within it is not. -/
inductive LookupFailure where
  | unknownRoute : LookupFailure
  | unknownEvent : LookupFailure

/-- Modelled from the spec (§4.1): `lookup(route, event_name)` returns the
handler or fails, distinguishing unknown route from unknown event. -/
def WebSocketRouter.lookup {α : Type} (router : WebSocketRouter α)
    (route event : String) : Except LookupFailure (HandlerDef α) :=
  match alookup router.routes route with
  | none => Except.error LookupFailure.unknownRoute
  | some evs =>
    match alookup evs event with
    | none => Except.error LookupFailure.unknownEvent
    | some h => Except.ok h

/-- Modelled from the spec (§4.4 Response Builder): `create_response(data)`
builds a response echoing the originating `id`, `event`, `route`, with the
given payload and no error. -/
def createResponse (req : WebSocketRequest) (d : JsonData) : WebSocketResponse :=
  { id := req.id, event := req.event, route := req.route, data := some d,
    error := none }

/-- Modelled from the spec (§7): every recoverable error is surfaced as a
response with a non-null `error` string and echoed `id`, `route`, `event`. -/
def errorResponse (req : WebSocketRequest) (msg : String) : WebSocketResponse :=
  { id := req.id, event := req.event, route := req.route, data := none,
    error := some msg }

/-- The payload a handler's `handle` receives: the validated payload when a
schema is declared, the raw `data` otherwise (§4.2). -/
def validatedPayload {α : Type} (hd : HandlerDef α) (d : Option JsonData) : Option Json :=
  match hd.schema with
  | none => some (encodeData d)
  | some validate => validate d

/-- Outcome of dispatching one decoded request: the responses (each with its
delivery strategy) and whether the handler's `handle` operation ran. -/
structure DispatchResult where
  responses : List (WebSocketResponse × Strategy)
  handleInvoked : Bool

/-- Modelled from the spec (§4.5 receive loop, one decoded message): look the
handler up in the Route Table (failure: error response), validate the payload
against the declared schema (failure: error response without invoking
`handle`), resolve the declared dependencies (failure: error response), then
invoke `handle` and wrap each produced payload into a response echoing the
request. -/
def processRequest {α : Type} (router : WebSocketRouter α) (inj : Injector α)
    (req : WebSocketRequest) : DispatchResult :=
  match router.lookup req.route req.event with
  | Except.error LookupFailure.unknownRoute =>
    ⟨[(errorResponse req "Unknown route", Strategy.respondent)], false⟩
  | Except.error LookupFailure.unknownEvent =>
    ⟨[(errorResponse req "Unknown event", Strategy.respondent)], false⟩
  | Except.ok hd =>
    match validatedPayload hd req.data with
    | none => ⟨[(errorResponse req "Validation error", Strategy.respondent)], false⟩
    | some payload =>
      match resolveAll inj hd.deps with
      | none => ⟨[(errorResponse req "Unresolved dependency", Strategy.respondent)], false⟩
      | some vals =>
        ⟨(hd.handleFn payload vals).map (fun p => (createResponse req p.1, p.2)), true⟩

/-- Translated from the test source: the SQL-model mock `User`, one field
`id : int`. -/
structure User where
  id : Int

/-- Translated from the test source: `UserSchema` declares `user_id: int`, so
validation requires `data` to be an object whose `user_id` field is an
integer; extra fields are ignored by pydantic's defaults. -/
def userSchemaValidate : Option JsonData → Option Json
  | some (JsonData.obj fs) =>
    match alookup fs "user_id" with
    | some (Json.num n) => some (Json.obj [("user_id", Json.num n)])
    | _ => none
  | _ => none

/-- Translated from the test source: `PingEvent.handle` builds the response
payload `data = "Pong"` and attaches the respondent strategy. -/
def pingEvent : HandlerDef User :=
  { eventName := "ping", schema := none, deps := [],
    handleFn := fun _ _ =>
      [(JsonData.obj [("data", Json.str "Pong")], Strategy.respondent)] }

/-- Translated from the test source: `UserEvent.handle(user: User)` builds the
payload `user = user.id`, `user_id_from_request = self.data.user_id` and
attaches the respondent strategy.  It declares the `User` dependency and the
`UserSchema` payload schema. -/
def userEvent : HandlerDef User :=
  { eventName := "user", schema := some userSchemaValidate, deps := ["User"],
    handleFn := fun payload vals =>
      let u := vals.headD ⟨0⟩
      let uid : Json :=
        match payload with
        | Json.obj fs => (alookup fs "user_id").getD Json.null
        | _ => Json.null
      [(JsonData.obj [("user", Json.num u.id), ("user_id_from_request", uid)],
        Strategy.respondent)] }

/-- Translated from the test source: the `echo` handler registers `PingEvent`
under event `ping` and `UserEvent` under event `user`. -/
def echoRouter : WebSocketRouter User :=
  ⟨[("echo", [("ping", pingEvent), ("user", userEvent)])]⟩

/-- Translated from the test source: `Injector.register(User)` registers the
`User` capability globally with no provider, and `start_chat` overlays the
per-connection value `User(user_id)`. -/
def testInjector (uid : Int) : Injector User :=
  { globalRegs := [("User", none)], perConn := [("User", ⟨uid⟩)] }

/-- A field value that is a present string (required `str` fields). -/
def isStringVal : Option Json → Bool
  | some (Json.str _) => true
  | _ => false

/-- A field value acceptable for `id`: absent, null, an integer or a string. -/
def idFieldOk : Option Json → Bool
  | none => true
  | some Json.null => true
  | some (Json.num _) => true
  | some (Json.str _) => true
  | some _ => false

/-- A field value acceptable for `data`: absent, null, an object or a list. -/
def dataFieldOk : Option Json → Bool
  | none => true
  | some Json.null => true
  | some (Json.obj _) => true
  | some (Json.arr _) => true
  | some _ => false

/-- The `id` field validator succeeds exactly on the acceptable `id` values. -/
theorem decodeIdField_isSome (o : Option Json) :
    (decodeIdField o).isSome = idFieldOk o := by
  rcases o with _ | (_ | b | n | s | xs | fs) <;> rfl

/-- The required-string field validator succeeds exactly on present strings. -/
theorem decodeStrField_isSome (o : Option Json) :
    (decodeStrField o).isSome = isStringVal o := by
  rcases o with _ | (_ | b | n | s | xs | fs) <;> rfl

/-- The `data` field validator succeeds exactly on the acceptable `data` values. -/
theorem decodeDataField_isSome (o : Option Json) :
    (decodeDataField o).isSome = dataFieldOk o := by
  rcases o with _ | (_ | b | n | s | xs | fs) <;> rfl

/-- Decoding an object frame succeeds exactly when all four fields pass their
field validators. -/
theorem decode_obj_isSome (fs : List (String × Json)) :
    (WebSocketRequest.decode (Json.obj fs)).isSome =
      (idFieldOk (alookup fs "id") && isStringVal (alookup fs "event") &&
       isStringVal (alookup fs "route") && dataFieldOk (alookup fs "data")) := by
  rw [← decodeIdField_isSome, ← decodeStrField_isSome, ← decodeStrField_isSome,
    ← decodeDataField_isSome]
  show (match decodeIdField (alookup fs "id"), decodeStrField (alookup fs "event"),
        decodeStrField (alookup fs "route"), decodeDataField (alookup fs "data") with
    | some i, some e, some r, some d => some (⟨i, e, r, d⟩ : WebSocketRequest)
    | _, _, _, _ => none).isSome = _
  cases decodeIdField (alookup fs "id") <;>
    cases decodeStrField (alookup fs "event") <;>
    cases decodeStrField (alookup fs "route") <;>
    cases decodeDataField (alookup fs "data") <;> rfl

/-- A successful decode of an object frame determines each decoded field from
its field validator. -/
theorem decode_obj_components (fs : List (String × Json)) (m : WebSocketRequest)
    (h : WebSocketRequest.decode (Json.obj fs) = some m) :
    decodeIdField (alookup fs "id") = some m.id ∧
    decodeStrField (alookup fs "event") = some m.event ∧
    decodeStrField (alookup fs "route") = some m.route ∧
    decodeDataField (alookup fs "data") = some m.data := by
  simp only [WebSocketRequest.decode] at h
  rcases h1 : decodeIdField (alookup fs "id") with _ | i
  · rw [h1] at h; exact absurd h (by simp)
  rcases h2 : decodeStrField (alookup fs "event") with _ | e
  · rw [h1, h2] at h; exact absurd h (by simp)
  rcases h3 : decodeStrField (alookup fs "route") with _ | r
  · rw [h1, h2, h3] at h; exact absurd h (by simp)
  rcases h4 : decodeDataField (alookup fs "data") with _ | d
  · rw [h1, h2, h3, h4] at h; exact absurd h (by simp)
  rw [h1, h2, h3, h4] at h
  simp only [Option.some.injEq] at h
  subst h
  exact ⟨rfl, rfl, rfl, rfl⟩

/-- Every response `processRequest` produces, on any branch of the pipeline
(handler output or recoverable error), echoes the request's `id`, `event` and
`route`. -/
theorem processRequest_fields {α : Type} (router : WebSocketRouter α)
    (inj : Injector α) (req : WebSocketRequest) (resp : WebSocketResponse)
    (strat : Strategy)
    (hmem : (resp, strat) ∈ (processRequest router inj req).responses) :
    resp.id = req.id ∧ resp.event = req.event ∧ resp.route = req.route := by
  simp only [processRequest] at hmem
  split at hmem
  · simp only [List.mem_singleton, Prod.mk.injEq] at hmem
    rw [hmem.1]; exact ⟨rfl, rfl, rfl⟩
  · simp only [List.mem_singleton, Prod.mk.injEq] at hmem
    rw [hmem.1]; exact ⟨rfl, rfl, rfl⟩
  · split at hmem
    · simp only [List.mem_singleton, Prod.mk.injEq] at hmem
      rw [hmem.1]; exact ⟨rfl, rfl, rfl⟩
    · split at hmem
      · simp only [List.mem_singleton, Prod.mk.injEq] at hmem
        rw [hmem.1]; exact ⟨rfl, rfl, rfl⟩
      · simp only [List.mem_map, Prod.mk.injEq] at hmem
        obtain ⟨p, hp, hresp, hstrat⟩ := hmem
        rw [← hresp]; exact ⟨rfl, rfl, rfl⟩

/-- Claim C4: encoding a well-formed request or response message to its wire
form and decoding it back yields a message equal field-for-field to the
original. -/
theorem message_roundtrip :
    (∀ m : WebSocketRequest,
      WebSocketRequest.decode (WebSocketRequest.encode m) = some m) ∧
    (∀ m : WebSocketResponse,
      WebSocketResponse.decode (WebSocketResponse.encode m) = some m) := by
  constructor
  · rintro ⟨i, e, r, d⟩
    rcases i with _ | (n | s) <;> rcases d with _ | (gs | xs) <;> rfl
  · rintro ⟨⟨i, e, r, d⟩, err⟩
    rcases i with _ | (n | s) <;> rcases d with _ | (gs | xs) <;>
      rcases err with _ | s2 <;> rfl

/-- Claim C6: decoding a frame into a request message succeeds exactly when
the frame is an object whose `event` and `route` are present strings, whose
`id` is absent, null, an integer or a string, and whose `data` is absent,
null, an object or a list; on success an absent `id` becomes null and an
absent `data` becomes the empty object. -/
theorem request_decode_characterization (j : Json) :
    ((WebSocketRequest.decode j).isSome = true ↔
      ∃ fs, j = Json.obj fs ∧
        isStringVal (alookup fs "event") = true ∧
        isStringVal (alookup fs "route") = true ∧
        idFieldOk (alookup fs "id") = true ∧
        dataFieldOk (alookup fs "data") = true) ∧
    (∀ fs m, j = Json.obj fs → WebSocketRequest.decode j = some m →
      (alookup fs "id" = none → m.id = none) ∧
      (alookup fs "data" = none → m.data = some (JsonData.obj []))) := by
  constructor
  · cases j with
    | obj fs =>
      rw [decode_obj_isSome]
      constructor
      · intro h
        simp only [Bool.and_eq_true] at h
        exact ⟨fs, rfl, h.1.1.2, h.1.2, h.1.1.1, h.2⟩
      · rintro ⟨fs2, heq, h1, h2, h3, h4⟩
        injection heq with heq2
        subst heq2
        simp only [Bool.and_eq_true]
        exact ⟨⟨⟨h3, h1⟩, h2⟩, h4⟩
    | null =>
      constructor
      · intro h; exact absurd h (by simp [WebSocketRequest.decode])
      · rintro ⟨fs2, heq, h1, h2, h3, h4⟩; cases heq
    | bool b =>
      constructor
      · intro h; exact absurd h (by simp [WebSocketRequest.decode])
      · rintro ⟨fs2, heq, h1, h2, h3, h4⟩; cases heq
    | num n =>
      constructor
      · intro h; exact absurd h (by simp [WebSocketRequest.decode])
      · rintro ⟨fs2, heq, h1, h2, h3, h4⟩; cases heq
    | str s =>
      constructor
      · intro h; exact absurd h (by simp [WebSocketRequest.decode])
      · rintro ⟨fs2, heq, h1, h2, h3, h4⟩; cases heq
    | arr xs =>
      constructor
      · intro h; exact absurd h (by simp [WebSocketRequest.decode])
      · rintro ⟨fs2, heq, h1, h2, h3, h4⟩; cases heq
  · intro fs m heq hdec
    subst heq
    obtain ⟨h1, h2, h3, h4⟩ := decode_obj_components fs m hdec
    constructor
    · intro hid
      rw [hid] at h1
      simp only [decodeIdField, Option.some.injEq] at h1
      exact h1.symm
    · intro hdat
      rw [hdat] at h4
      simp only [decodeDataField, Option.some.injEq] at h4
      exact h4.symm

/-- Witness for claim C6: the minimal frame carrying only `event` and `route`
decodes successfully. -/
theorem request_decode_characterization_witness :
    (WebSocketRequest.decode (Json.obj
      [("event", Json.str "ping"), ("route", Json.str "echo")])).isSome = true :=
  (request_decode_characterization _).1.mpr ⟨_, rfl, rfl, rfl, rfl, rfl⟩

/-- Claim C5: the response wire shape is exactly the request wire shape
extended with one additional optional `error` field of type string-or-null,
defaulting to null: serialization emits the inherited request fields followed
by `error`, and decoding a response is decoding the request fields plus the
`error` field validator. -/
theorem response_shape_extends_request :
    (∀ r : WebSocketResponse,
      WebSocketResponse.encode r =
        Json.obj (requestFields r.toWebSocketRequest ++ [("error", encodeError r.error)])) ∧
    (∀ (j : Json) (r : WebSocketResponse),
      WebSocketResponse.decode j = some r ↔
        WebSocketRequest.decode j = some r.toWebSocketRequest ∧
          ∃ fs, j = Json.obj fs ∧ decodeErrorField (alookup fs "error") = some r.error) ∧
    (∀ (fs : List (String × Json)) (r : WebSocketResponse),
      alookup fs "error" = none →
      WebSocketResponse.decode (Json.obj fs) = some r → r.error = none) := by
  refine ⟨fun r => rfl, fun j r => ?_, fun fs r herr hdec => ?_⟩
  · cases j with
    | obj fs =>
      constructor
      · intro h
        simp only [WebSocketResponse.decode] at h
        rcases h1 : WebSocketRequest.decode (Json.obj fs) with _ | req
        · rw [h1] at h; exact absurd h (by simp)
        rcases h2 : decodeErrorField (alookup fs "error") with _ | err
        · rw [h1, h2] at h; exact absurd h (by simp)
        rw [h1, h2] at h
        simp only [Option.some.injEq] at h
        subst h
        exact ⟨rfl, fs, rfl, h2⟩
      · rintro ⟨hreq, fs2, heq, herr⟩
        injection heq with heq2
        subst heq2
        simp only [WebSocketResponse.decode]
        rw [hreq, herr]
    | null =>
      constructor
      · intro h; exact absurd h (by simp [WebSocketResponse.decode])
      · rintro ⟨hreq, fs2, heq, herr⟩; cases heq
    | bool b =>
      constructor
      · intro h; exact absurd h (by simp [WebSocketResponse.decode])
      · rintro ⟨hreq, fs2, heq, herr⟩; cases heq
    | num n =>
      constructor
      · intro h; exact absurd h (by simp [WebSocketResponse.decode])
      · rintro ⟨hreq, fs2, heq, herr⟩; cases heq
    | str s =>
      constructor
      · intro h; exact absurd h (by simp [WebSocketResponse.decode])
      · rintro ⟨hreq, fs2, heq, herr⟩; cases heq
    | arr xs =>
      constructor
      · intro h; exact absurd h (by simp [WebSocketResponse.decode])
      · rintro ⟨hreq, fs2, heq, herr⟩; cases heq
  · simp only [WebSocketResponse.decode] at hdec
    rcases h1 : WebSocketRequest.decode (Json.obj fs) with _ | req
    · rw [h1] at hdec; exact absurd hdec (by simp)
    rcases h2 : decodeErrorField (alookup fs "error") with _ | err
    · rw [h1, h2] at hdec; exact absurd hdec (by simp)
    rw [h1, h2] at hdec
    simp only [Option.some.injEq] at hdec
    subst hdec
    rw [herr] at h2
    simp only [decodeErrorField, Option.some.injEq] at h2
    exact h2.symm

/-- Witness for claim C5: a concrete frame with all five fields null or set
decodes to the expected response value. -/
theorem response_shape_extends_request_witness :
    WebSocketResponse.decode (Json.obj
      [("id", Json.null), ("event", Json.str "e"), ("route", Json.str "r"),
       ("data", Json.null), ("error", Json.null)]) =
      some ⟨⟨none, "e", "r", none⟩, none⟩ :=
  (response_shape_extends_request.2.1 _ _).mpr ⟨rfl, _, rfl, rfl⟩

/-- Claim C9: a request whose `data` field is explicitly present with value
null decodes with `data = none`, not the empty object; the empty-object
default applies only when the `data` field is entirely absent. -/
theorem data_null_not_defaulted (fs : List (String × Json)) (m : WebSocketRequest)
    (hdec : WebSocketRequest.decode (Json.obj fs) = some m) :
    (alookup fs "data" = some Json.null →
      m.data = none ∧ m.data ≠ some (JsonData.obj [])) ∧
    (alookup fs "data" = none → m.data = some (JsonData.obj [])) := by
  obtain ⟨h1, h2, h3, h4⟩ := decode_obj_components fs m hdec
  constructor
  · intro hnull
    rw [hnull] at h4
    simp only [decodeDataField, Option.some.injEq] at h4
    rw [← h4]
    exact ⟨rfl, by simp⟩
  · intro habs
    rw [habs] at h4
    simp only [decodeDataField, Option.some.injEq] at h4
    exact h4.symm

/-- Witness for claim C9: a concrete frame with `data` explicitly null decodes
with a null payload rather than the empty-object default. -/
theorem data_null_not_defaulted_witness :
    ∃ m : WebSocketRequest,
      WebSocketRequest.decode (Json.obj
        [("event", Json.str "ping"), ("route", Json.str "echo"),
         ("data", Json.null)]) = some m ∧
      m.data = none ∧ m.data ≠ some (JsonData.obj []) :=
  ⟨⟨none, "ping", "echo", none⟩, rfl,
    (data_null_not_defaulted
      [("event", Json.str "ping"), ("route", Json.str "echo"), ("data", Json.null)]
      ⟨none, "ping", "echo", none⟩ rfl).1 rfl⟩

/-- Claim C10: the message shape places no non-emptiness constraint on `route`
and `event`: a frame whose `route` and/or `event` is the empty string, with
otherwise well-formed fields, decodes successfully. -/
theorem empty_route_event_accepted (fs : List (String × Json)) (e r : String)
    (hev : alookup fs "event" = some (Json.str e))
    (hrt : alookup fs "route" = some (Json.str r))
    (hid : idFieldOk (alookup fs "id") = true)
    (hdat : dataFieldOk (alookup fs "data") = true)
    (_hempty : e = "" ∨ r = "") :
    ∃ m, WebSocketRequest.decode (Json.obj fs) = some m ∧
      m.event = e ∧ m.route = r := by
  obtain ⟨i, hi⟩ := Option.isSome_iff_exists.mp (by rw [decodeIdField_isSome]; exact hid)
  obtain ⟨d, hd⟩ := Option.isSome_iff_exists.mp (by rw [decodeDataField_isSome]; exact hdat)
  refine ⟨⟨i, e, r, d⟩, ?_, rfl, rfl⟩
  simp only [WebSocketRequest.decode]
  rw [hi, hd, hev, hrt]
  rfl

/-- Witness for claim C10: the frame with both `event` and `route` empty
decodes successfully. -/
theorem empty_route_event_accepted_witness :
    ∃ m, WebSocketRequest.decode (Json.obj
      [("event", Json.str ""), ("route", Json.str "")]) = some m ∧
      m.event = "" ∧ m.route = "" :=
  empty_route_event_accepted _ "" "" rfl rfl rfl rfl (Or.inl rfl)

/-- Claim C1: for every request whose (route, event) pair is known to the
Route Table, every response the dispatch pipeline delivers back carries
exactly the same `id`, `event` and `route` as the originating request. -/
theorem response_echoes_request {α : Type} (router : WebSocketRouter α)
    (inj : Injector α) (req : WebSocketRequest) (hd : HandlerDef α)
    (_hknown : router.lookup req.route req.event = Except.ok hd)
    (resp : WebSocketResponse) (strat : Strategy)
    (hmem : (resp, strat) ∈ (processRequest router inj req).responses) :
    resp.id = req.id ∧ resp.event = req.event ∧ resp.route = req.route :=
  processRequest_fields router inj req resp strat hmem

/-- Witness for claim C1: the ping response of the echo route echoes the
request's `id`, `event` and `route`. -/
theorem response_echoes_request_witness :
    (⟨⟨some (IdScalar.int 5), "ping", "echo",
        some (JsonData.obj [("data", Json.str "Pong")])⟩, none⟩ : WebSocketResponse).id
        = (⟨some (IdScalar.int 5), "ping", "echo",
            some (JsonData.obj [])⟩ : WebSocketRequest).id ∧
    (⟨⟨some (IdScalar.int 5), "ping", "echo",
        some (JsonData.obj [("data", Json.str "Pong")])⟩, none⟩ : WebSocketResponse).event
        = "ping" ∧
    (⟨⟨some (IdScalar.int 5), "ping", "echo",
        some (JsonData.obj [("data", Json.str "Pong")])⟩, none⟩ : WebSocketResponse).route
        = "echo" :=
  response_echoes_request echoRouter (testInjector 0)
    ⟨some (IdScalar.int 5), "ping", "echo", some (JsonData.obj [])⟩
    pingEvent rfl _ Strategy.respondent (List.Mem.head _)

/-- Claim C2: for any scalar `id`, the wire request with route `echo` and
event `ping` produces exactly one response, delivered to the respondent,
whose wire form carries the same `id`, the `Pong` payload and a null error. -/
theorem ping_scenario (x : IdScalar) :
    (WebSocketRequest.decode (Json.obj
        [("id", encodeId (some x)), ("route", Json.str "echo"),
         ("event", Json.str "ping")])).map
      (fun req => (processRequest echoRouter (testInjector 0) req).responses.map
        (fun p => (p.1.encode, p.2)))
    = some [(Json.obj
        [("id", encodeId (some x)), ("event", Json.str "ping"),
         ("route", Json.str "echo"), ("data", Json.obj [("data", Json.str "Pong")]),
         ("error", Json.null)], Strategy.respondent)] := by
  cases x <;> rfl

/-- Claim C3: for a connection whose injected `User` value is bound to 8001,
the wire request with route `echo`, event `user` and payload
`user_id = 113` produces exactly one respondent response whose payload takes
`user` from the injected object's `id` and `user_id_from_request` from the
validated request payload, with a null error. -/
theorem user_scenario :
    (WebSocketRequest.decode (Json.obj
        [("id", Json.num 1), ("route", Json.str "echo"),
         ("event", Json.str "user"),
         ("data", Json.obj [("user_id", Json.num 113)])])).map
      (fun req => (processRequest echoRouter (testInjector 8001) req).responses.map
        (fun p => (p.1.encode, p.2)))
    = some [(Json.obj
        [("id", Json.num 1), ("event", Json.str "user"),
         ("route", Json.str "echo"),
         ("data", Json.obj [("user", Json.num 8001),
                            ("user_id_from_request", Json.num 113)]),
         ("error", Json.null)], Strategy.respondent)] := rfl

/-- Claim C7: when a request's payload fails the handler's declared schema
validation, the pipeline produces an error response (non-null `error`) and the
handler's `handle` operation is never invoked. -/
theorem validation_failure_skips_handle {α : Type} (router : WebSocketRouter α)
    (inj : Injector α) (req : WebSocketRequest) (hd : HandlerDef α)
    (validate : Option JsonData → Option Json)
    (hlook : router.lookup req.route req.event = Except.ok hd)
    (hschema : hd.schema = some validate)
    (hfail : validate req.data = none) :
    (processRequest router inj req).handleInvoked = false ∧
    (processRequest router inj req).responses =
      [(errorResponse req "Validation error", Strategy.respondent)] ∧
    (errorResponse req "Validation error").error = some "Validation error" := by
  have hvp : validatedPayload hd req.data = none := by
    simp only [validatedPayload, hschema]; exact hfail
  simp only [processRequest, hlook, hvp]
  refine ⟨?_, ?_, ?_⟩ <;> trivial

/-- Witness for claim C7: the `user` event with an empty-object payload fails
`UserSchema` validation, yields an error response and never runs `handle`. -/
theorem validation_failure_skips_handle_witness :
    (processRequest echoRouter (testInjector 0)
      ⟨some (IdScalar.int 1), "user", "echo", some (JsonData.obj [])⟩).handleInvoked
      = false ∧
    (processRequest echoRouter (testInjector 0)
      ⟨some (IdScalar.int 1), "user", "echo", some (JsonData.obj [])⟩).responses =
      [(errorResponse ⟨some (IdScalar.int 1), "user", "echo", some (JsonData.obj [])⟩
          "Validation error", Strategy.respondent)] ∧
    (errorResponse ⟨some (IdScalar.int 1), "user", "echo", some (JsonData.obj [])⟩
        "Validation error").error = some "Validation error" :=
  validation_failure_skips_handle echoRouter (testInjector 0)
    ⟨some (IdScalar.int 1), "user", "echo", some (JsonData.obj [])⟩
    userEvent userSchemaValidate rfl rfl rfl

/-- Claim C8: dependency resolution prefers the per-connection binding: a
per-connection value wins over any global provider, an absent per-connection
value falls back to the global provider, a deferred or unregistered capability
resolves to failure, and a handler whose dependencies all resolve is invoked
with exactly the resolved values. -/
theorem injector_per_connection_precedence {α : Type} (inj : Injector α) (t : String) :
    (∀ v : α, alookup inj.perConn t = some v → inj.resolve t = some v) ∧
    (∀ v : α, alookup inj.perConn t = some v → resolveAll inj [t] = some [v]) ∧
    (alookup inj.perConn t = none → ∀ w : α,
      alookup inj.globalRegs t = some (some w) → inj.resolve t = some w) ∧
    (alookup inj.perConn t = none →
      (alookup inj.globalRegs t = none ∨ alookup inj.globalRegs t = some none) →
      inj.resolve t = none) ∧
    (∀ (router : WebSocketRouter α) (req : WebSocketRequest) (hd : HandlerDef α)
        (payload : Json) (vals : List α),
      router.lookup req.route req.event = Except.ok hd →
      validatedPayload hd req.data = some payload →
      resolveAll inj hd.deps = some vals →
      processRequest router inj req =
        ⟨(hd.handleFn payload vals).map (fun p => (createResponse req p.1, p.2)), true⟩) := by
  refine ⟨fun v hv => ?_, fun v hv => ?_, fun hnone w hw => ?_, fun hnone hg => ?_,
    fun router req hd payload vals hlook hvp hres => ?_⟩
  · simp only [Injector.resolve, hv]
  · simp only [resolveAll, Injector.resolve, hv, Option.map]
  · simp only [Injector.resolve, hnone, hw]
  · rcases hg with hg | hg <;> simp only [Injector.resolve, hnone, hg]
  · simp only [processRequest, hlook, hvp, hres]

/-- Witness for claim C8: with a global `User` provider bound to 999 and a
per-connection value bound to 8001, resolution returns 8001; without the
per-connection value it returns 999; and the `user` handler of the echo route
is invoked with the per-connection value. -/
theorem injector_per_connection_precedence_witness :
    (Injector.mk [("User", some (User.mk 999))] [("User", User.mk 8001)]).resolve "User"
      = some (User.mk 8001) ∧
    (Injector.mk [("User", some (User.mk 999))] ([] : List (String × User))).resolve "User"
      = some (User.mk 999) ∧
    (testInjector 8001).resolve "User" = some (User.mk 8001) ∧
    processRequest echoRouter (testInjector 8001)
      ⟨some (IdScalar.int 1), "user", "echo",
        some (JsonData.obj [("user_id", Json.num 113)])⟩ =
      ⟨[(createResponse
          ⟨some (IdScalar.int 1), "user", "echo",
            some (JsonData.obj [("user_id", Json.num 113)])⟩
          (JsonData.obj [("user", Json.num 8001),
                         ("user_id_from_request", Json.num 113)]),
        Strategy.respondent)], true⟩ :=
  ⟨(injector_per_connection_precedence
      (Injector.mk [("User", some (User.mk 999))] [("User", User.mk 8001)]) "User").1
      (User.mk 8001) rfl,
   (injector_per_connection_precedence
      (Injector.mk [("User", some (User.mk 999))] ([] : List (String × User))) "User").2.2.1
      rfl (User.mk 999) rfl,
   (injector_per_connection_precedence (testInjector 8001) "User").1 (User.mk 8001) rfl,
   (injector_per_connection_precedence (testInjector 8001) "User").2.2.2.2
      echoRouter
      ⟨some (IdScalar.int 1), "user", "echo",
        some (JsonData.obj [("user_id", Json.num 113)])⟩
      userEvent (Json.obj [("user_id", Json.num 113)]) [User.mk 8001] rfl rfl rfl⟩
